import Mathlib

/-!
# akarui: shader build pipeline, quad renderer, texture store, fps counter

A shallow embedding of `src/akarui/src/main.cpp`.

The program talks to two things it does not define: the file system and the
OpenGL driver.  Both are a parameter of every function here (`Driver`): what
the driver answers is arbitrary, what the program does with the answers is
translated from the source.  Every GL call the program issues is appended to a
command stream (`World.calls`), every `fprintf(stderr, ...)` appends one entry
to `World.stderr`.
-/

namespace Akarui

/-! ## OpenGL vocabulary -/

/-- The OpenGL enumerants that occur in `main.cpp` (and the two default
filter values of a fresh texture object, which the texture model needs). -/
inductive GLenum where
  | GL_VERTEX_SHADER
  | GL_FRAGMENT_SHADER
  | GL_COMPILE_STATUS
  | GL_LINK_STATUS
  | GL_INFO_LOG_LENGTH
  | GL_ARRAY_BUFFER
  | GL_STATIC_DRAW
  | GL_FLOAT
  | GL_QUADS
  | GL_TEXTURE_2D
  | GL_RGBA32F
  | GL_RGBA
  | GL_TEXTURE_WRAP_S
  | GL_TEXTURE_WRAP_T
  | GL_TEXTURE_MAG_FILTER
  | GL_TEXTURE_MIN_FILTER
  | GL_REPEAT
  | GL_NEAREST
  | GL_LINEAR
  | GL_NEAREST_MIPMAP_LINEAR
  deriving DecidableEq

/-- A `GLfloat` payload value.  No floating-point arithmetic is modelled: the
values are only stored and handed to the driver. -/
abbrev GLfloat := Rat

/-- The `glm::vec4` pixel of the texture upload. -/
structure vec4 where
  x : GLfloat
  y : GLfloat
  z : GLfloat
  w : GLfloat
  deriving DecidableEq

/-- One OpenGL call with its arguments, as issued by the program.  Calls that
create an object carry the name the driver returned (last argument of
`glCreateShader`, `glCreateProgram`, `glGenBuffers`, `glGenTextures`).
`glDeleteShader` is part of the API vocabulary; `main.cpp` never issues it. -/
inductive GLCall where
  | glCreateShader (type : GLenum) (ret : Nat)
  | glShaderSource (shader : Nat) (count : Nat) (string : List String)
  | glCompileShader (shader : Nat)
  | glGetShaderiv (shader : Nat) (pname : GLenum)
  | glGetShaderInfoLog (shader : Nat) (bufSize : Int)
  | glDeleteShader (shader : Nat)
  | glCreateProgram (ret : Nat)
  | glAttachShader (program : Nat) (shader : Nat)
  | glLinkProgram (program : Nat)
  | glGetProgramiv (program : Nat) (pname : GLenum)
  | glGetProgramInfoLog (program : Nat) (bufSize : Int)
  | glDeleteProgram (program : Nat)
  | glGenBuffers (n : Nat) (ret : Nat)
  | glBindBuffer (target : GLenum) (buffer : Nat)
  | glBufferData (target : GLenum) (size : Nat) (data : List GLfloat) (usage : GLenum)
  | glEnableVertexAttribArray (index : Nat)
  | glVertexAttribPointer (index : Nat) (size : Nat) (type : GLenum) (normalized : Bool)
      (stride : Nat) (pointer : Nat)
  | glDrawArrays (mode : GLenum) (first : Nat) (count : Nat)
  | glGenTextures (n : Nat) (ret : Nat)
  | glBindTexture (target : GLenum) (texture : Nat)
  | glTexImage2D (target : GLenum) (level : Int) (internalformat : GLenum) (width : Int)
      (height : Int) (border : Int) (format : GLenum) (type : GLenum)
      (pixels : Option (List vec4))
  | glTexParameteri (target : GLenum) (pname : GLenum) (param : GLenum)
  deriving DecidableEq

/-! ## The environment -/

/-- What the outside world answers during one run.

* `openFile path` is the whole text `buf << f.rdbuf()` reads from `path`, or
  `none` when the `std::ifstream` fails to open (`!f`).
* `name k` is the object name the driver hands out at its `k`-th creation call
  of the run (`glCreateShader`, `glCreateProgram`, `glGenBuffers`,
  `glGenTextures`).
* `shaderiv` / `programiv` are the integers written by `glGetShaderiv` /
  `glGetProgramiv`; `shaderInfoLog` / `programInfoLog` are the pair
  (`olen`, NUL-terminated text written to the buffer) of
  `glGetShaderInfoLog` / `glGetProgramInfoLog` for a buffer size.

Each shader or program object is queried only after its last state change in
`compileShaderProgram`, so the answers are indexed by the object name. -/
structure Driver where
  openFile : String → Option String
  name : Nat → Nat
  shaderiv : Nat → GLenum → Int
  shaderInfoLog : Nat → Int → Int × String
  programiv : Nat → GLenum → Int
  programInfoLog : Nat → Int → Int × String

/-- The observable state threaded through the program: the GL command stream
in program order, the number of object names handed out so far, and the lines
written to the error stream (one entry per `fprintf(stderr, ...)`). -/
structure World where
  calls : List GLCall
  names : Nat
  stderr : List String
  deriving DecidableEq

/-- Issue one GL call. -/
def World.call (w : World) (c : GLCall) : World :=
  { w with calls := w.calls ++ [c] }

/-- One `fprintf(stderr, ...)`. -/
def World.eprint (w : World) (line : String) : World :=
  { w with stderr := w.stderr ++ [line] }

/-- The driver hands out its next object name. -/
def World.fresh (d : Driver) (w : World) : Nat × World :=
  (d.name w.names, { w with names := w.names + 1 })

/-- The C string a `std::string` denotes when its `c_str()` is passed with no
explicit length: the characters before the first NUL. -/
def c_str (s : String) : String :=
  String.mk (s.data.takeWhile (fun c => c ≠ Char.ofNat 0))

/-! ## Shader program builder (main.cpp 141-242) -/

/-- `checkCompileSuccess(shader, err)`: returns the success flag, the new
value of the by-reference `err`, and the world. -/
def checkCompileSuccess (d : Driver) (shader : Nat) (err : String) (w : World) :
    Bool × String × World :=
  let compiled := d.shaderiv shader .GL_COMPILE_STATUS
  let w := w.call (.glGetShaderiv shader .GL_COMPILE_STATUS)
  if compiled ≠ 0 then
    (true, err, w)
  else
    let len := d.shaderiv shader .GL_INFO_LOG_LENGTH
    let w := w.call (.glGetShaderiv shader .GL_INFO_LOG_LENGTH)
    if len > 1 then
      let r := d.shaderInfoLog shader len
      let w := w.call (.glGetShaderInfoLog shader len)
      (false, if r.1 > 0 then r.2 else err, w)
    else
      (false, err, w)

/-- `checkLinkSuccess(program, err)`. -/
def checkLinkSuccess (d : Driver) (program : Nat) (err : String) (w : World) :
    Bool × String × World :=
  let compiled := d.programiv program .GL_LINK_STATUS
  let w := w.call (.glGetProgramiv program .GL_LINK_STATUS)
  if compiled ≠ 0 then
    (true, err, w)
  else
    let len := d.programiv program .GL_INFO_LOG_LENGTH
    let w := w.call (.glGetProgramiv program .GL_INFO_LOG_LENGTH)
    if len > 1 then
      let r := d.programInfoLog program len
      let w := w.call (.glGetProgramInfoLog program len)
      (false, if r.1 > 0 then r.2 else err, w)
    else
      (false, err, w)

/-- `compileShaderProgram(filename)`: the returned handle (0 is the invalid
handle) and the world afterwards. -/
def compileShaderProgram (d : Driver) (filename : String) (w : World) : Nat × World :=
  let err := ""
  match d.openFile filename with
  | none => (0, w.eprint ("Failed to open shader file " ++ filename ++ "\n"))
  | some source =>
    -- Compile vertex shader
    let vertexSource :=
      ["#version 330 core\n", "#define COMPILING_VERTEX_SHADER\n", c_str source]
    let (vertex, w) := w.fresh d
    let w := w.call (.glCreateShader .GL_VERTEX_SHADER vertex)
    let w := w.call (.glShaderSource vertex 3 vertexSource)
    let w := w.call (.glCompileShader vertex)
    let (ok, err, w) := checkCompileSuccess d vertex err w
    if !ok then
      (0, w.eprint ("Vertex shader " ++ filename ++ " failed to compile: " ++ err ++ "\n"))
    else
      -- Compile fragment shader
      let fragmentSource :=
        ["#version 330 core\n", "#define COMPILING_FRAGMENT_SHADER\n", c_str source]
      let (fragment, w) := w.fresh d
      let w := w.call (.glCreateShader .GL_FRAGMENT_SHADER fragment)
      let w := w.call (.glShaderSource fragment 3 fragmentSource)
      let w := w.call (.glCompileShader fragment)
      let (ok, err, w) := checkCompileSuccess d fragment err w
      if !ok then
        (0, w.eprint ("Fragment shader " ++ filename ++ " failed to compile: " ++ err ++ "\n"))
      else
        -- Link shader program
        let (program, w) := w.fresh d
        let w := w.call (.glCreateProgram program)
        let w := w.call (.glAttachShader program vertex)
        let w := w.call (.glAttachShader program fragment)
        let w := w.call (.glLinkProgram program)
        let (ok, err, w) := checkLinkSuccess d program err w
        if !ok then
          let w := w.eprint ("Shader program " ++ filename ++ " failed to link: " ++ err ++ "\n")
          let w := w.call (.glDeleteProgram program)
          (0, w)
        else
          (program, w)

/-- The calls issued by one call of `compileShaderProgram`: the command stream
afterwards without the calls that were already there. -/
def attemptCalls (d : Driver) (filename : String) (w : World) : List GLCall :=
  (compileShaderProgram d filename w).2.calls.drop w.calls.length

/-- The diagnostics written by one call of `compileShaderProgram`. -/
def attemptDiagnostics (d : Driver) (filename : String) (w : World) : List String :=
  (compileShaderProgram d filename w).2.stderr.drop w.stderr.length

/-! ## Reading a command stream -/

/-- Does the call create a driver-side object? -/
def isCreation : GLCall → Bool
  | .glCreateShader _ _ => true
  | .glCreateProgram _ => true
  | .glGenBuffers _ _ => true
  | .glGenTextures _ _ => true
  | _ => false

/-- Does the call invoke the compiler or the linker? -/
def isCompileOrLink : GLCall → Bool
  | .glCompileShader _ => true
  | .glLinkProgram _ => true
  | _ => false

/-- Does the call fetch an info log? -/
def isLogFetch : GLCall → Bool
  | .glGetShaderInfoLog _ _ => true
  | .glGetProgramInfoLog _ _ => true
  | _ => false

/-- The source handed to the compiler by each `glShaderSource` call of a
command stream: the shader, the fragment count, and the ordered fragments. -/
def shaderSources : List GLCall → List (Nat × Nat × List String)
  | [] => []
  | .glShaderSource shader count string :: rest => (shader, count, string) :: shaderSources rest
  | _ :: rest => shaderSources rest

/-! ## Object lifetimes in a command stream -/

/-- A driver-side object, by kind and name. -/
inductive GLObject where
  | shader (name : Nat)
  | program (name : Nat)
  | buffer (name : Nat)
  | texture (name : Nat)
  deriving DecidableEq

/-- Effect of one call on the list of live objects: a creation call adds the
object it returned, a deletion call removes the object it names. -/
def liveStep (live : List GLObject) : GLCall → List GLObject
  | .glCreateShader _ n => live ++ [.shader n]
  | .glCreateProgram n => live ++ [.program n]
  | .glGenBuffers _ n => live ++ [.buffer n]
  | .glGenTextures _ n => live ++ [.texture n]
  | .glDeleteShader n => live.erase (.shader n)
  | .glDeleteProgram n => live.erase (.program n)
  | _ => live

/-- The objects created by a command stream and not deleted by it. -/
def liveObjects (calls : List GLCall) : List GLObject :=
  calls.foldl liveStep []

/-! ## Quad renderer (main.cpp 91-122) -/

/-- The function-local statics of `drawFullscreenQuad`. -/
structure QuadStatics where
  init : Bool
  vbo : Nat
  deriving DecidableEq

/-- Static initialisation: `init = false`, `vbo` zero-initialised. -/
def QuadStatics.start : QuadStatics := { init := false, vbo := 0 }

/-- Size of a C `float` in bytes. -/
def sizeof_float : Nat := 4

/-- The local array `quad`: 4 values per vertex (x, y, u, v). -/
def quad : List GLfloat :=
  [ -1, -1, 0, 1
  ,  1, -1, 1, 1
  ,  1,  1, 1, 0
  , -1,  1, 0, 0 ]

/-- `drawFullscreenQuad()`. -/
def drawFullscreenQuad (d : Driver) (s : QuadStatics) (w : World) : QuadStatics × World :=
  -- initialise vbo
  let (s, w) :=
    if !s.init then
      let (vbo, w) := w.fresh d
      let w := w.call (.glGenBuffers 1 vbo)
      let w := w.call (.glBindBuffer .GL_ARRAY_BUFFER vbo)
      let w := w.call (.glBufferData .GL_ARRAY_BUFFER (quad.length * sizeof_float) quad
        .GL_STATIC_DRAW)
      (({ init := true, vbo := vbo } : QuadStatics), w)
    else
      (s, w)
  -- Actually draw it
  let w := w.call (.glBindBuffer .GL_ARRAY_BUFFER s.vbo)
  let w := w.call (.glEnableVertexAttribArray 0)
  let w := w.call (.glVertexAttribPointer 0 2 .GL_FLOAT false (4 * sizeof_float) 0)
  let w := w.call (.glEnableVertexAttribArray 1)
  let w := w.call (.glVertexAttribPointer 1 2 .GL_FLOAT false (4 * sizeof_float)
    (2 * sizeof_float))
  let w := w.call (.glDrawArrays .GL_QUADS 0 4)
  (s, w)

/-- The state after `n` consecutive calls of `drawFullscreenQuad`. -/
def drawFrames (d : Driver) : Nat → QuadStatics × World → QuadStatics × World
  | 0, sw => sw
  | n + 1, sw =>
    let sw := drawFrames d n sw
    drawFullscreenQuad d sw.1 sw.2

/-- The calls of the lazy buffer initialisation for buffer `vbo`. -/
def initCalls (vbo : Nat) : List GLCall :=
  [ .glGenBuffers 1 vbo
  , .glBindBuffer .GL_ARRAY_BUFFER vbo
  , .glBufferData .GL_ARRAY_BUFFER 64 quad .GL_STATIC_DRAW ]

/-- The calls of the drawing part for buffer `vbo`. -/
def drawCalls (vbo : Nat) : List GLCall :=
  [ .glBindBuffer .GL_ARRAY_BUFFER vbo
  , .glEnableVertexAttribArray 0
  , .glVertexAttribPointer 0 2 .GL_FLOAT false 16 0
  , .glEnableVertexAttribArray 1
  , .glVertexAttribPointer 1 2 .GL_FLOAT false 16 8
  , .glDrawArrays .GL_QUADS 0 4 ]

/-- The list `xs` repeated `n` times. -/
def repeatCalls (n : Nat) (xs : List GLCall) : List GLCall :=
  match n with
  | 0 => []
  | n + 1 => repeatCalls n xs ++ xs

/-- Is the call a buffer allocation (`glGenBuffers`)? -/
def isAllocation : GLCall → Bool
  | .glGenBuffers _ _ => true
  | _ => false

/-- Is the call a buffer upload (`glBufferData`)? -/
def isUpload : GLCall → Bool
  | .glBufferData _ _ _ _ => true
  | _ => false

/-- Is the call a draw of 4 vertices? -/
def isDraw : GLCall → Bool
  | .glDrawArrays _ _ count => count == 4
  | _ => false

/-- Is the call a buffer binding of a buffer other than `vbo`? -/
def bindsOther (vbo : Nat) : GLCall → Bool
  | .glBindBuffer _ b => b != vbo
  | _ => false

/-- The calls issued by the `k`-th of the consecutive calls (k counted from 0),
starting from the statics at program start. -/
def frameCalls (d : Driver) (w : World) (k : Nat) : List GLCall :=
  (drawFrames d (k + 1) (QuadStatics.start, w)).2.calls.drop
    (drawFrames d k (QuadStatics.start, w)).2.calls.length

/-! ## Texture store (main.cpp 124-139 and 31-39) -/

/-- `createTexture(width, height)`. -/
def createTexture (d : Driver) (width height : Int) (w : World) : Nat × World :=
  let (id, w) := w.fresh d
  let w := w.call (.glGenTextures 1 id)
  let w := w.call (.glBindTexture .GL_TEXTURE_2D id)
  let w := w.call (.glTexImage2D .GL_TEXTURE_2D 0 .GL_RGBA32F width height 0 .GL_RGBA
    .GL_FLOAT none)
  let w := w.call (.glTexParameteri .GL_TEXTURE_2D .GL_TEXTURE_WRAP_S .GL_REPEAT)
  let w := w.call (.glTexParameteri .GL_TEXTURE_2D .GL_TEXTURE_WRAP_T .GL_REPEAT)
  let w := w.call (.glTexParameteri .GL_TEXTURE_2D .GL_TEXTURE_MAG_FILTER .GL_NEAREST)
  let w := w.call (.glTexParameteri .GL_TEXTURE_2D .GL_TEXTURE_MIN_FILTER .GL_NEAREST)
  (id, w)

/-- The texture upload of `main` (lines 33 and 39): bind `tex`, then
`glTexImage2D` with the client buffer `data`; `main` has 800 and 600 for
`width` and `height`. -/
def uploadTexture (tex : Nat) (width height : Int) (data : List vec4) (w : World) : World :=
  let w := w.call (.glBindTexture .GL_TEXTURE_2D tex)
  w.call (.glTexImage2D .GL_TEXTURE_2D 0 .GL_RGBA32F width height 0 .GL_RGBA .GL_FLOAT
    (some data))

/-- Lines 31-39 of `main` for a `width` x `height` texture. -/
def createAndUpload (d : Driver) (width height : Int) (data : List vec4) (w : World) :
    Nat × World :=
  let (tex, w) := createTexture d width height w
  (tex, uploadTexture tex width height data w)

/-- Driver-side state of one 2D texture object. -/
structure TexObject where
  width : Int
  height : Int
  internalformat : Option GLenum
  wrapS : GLenum
  wrapT : GLenum
  magFilter : GLenum
  minFilter : GLenum
  pixels : Option (List vec4)
  deriving DecidableEq

/-- A texture object as OpenGL creates it: no image, wrap = repeat, and the
default filters. -/
def TexObject.fresh : TexObject :=
  { width := 0, height := 0, internalformat := none, wrapS := .GL_REPEAT, wrapT := .GL_REPEAT,
    magFilter := .GL_LINEAR, minFilter := .GL_NEAREST_MIPMAP_LINEAR, pixels := none }

/-- The part of the OpenGL context the texture calls act on: the texture bound
to `GL_TEXTURE_2D`, the texture objects by name, and the error flag
(`glGetError() != GL_NO_ERROR`). -/
structure GLState where
  bound : Nat
  tex : Nat → TexObject
  error : Bool

/-- Replace the state of the bound texture. -/
def GLState.setBound (g : GLState) (t : TexObject) : GLState :=
  { g with tex := fun n => if n = g.bound then t else g.tex n }

/-- Raise the error flag; the offending call has no other effect. -/
def GLState.fail (g : GLState) : GLState :=
  { g with error := true }

/-- Environment model of the texture calls, after the OpenGL rules for them.
`glTexImage2D` raises an error for a negative size, a non-zero border, a
negative level, a format triple other than (RGBA32F, RGBA, FLOAT), or a client
buffer that does not hold exactly `width * height` pixels; otherwise it
(re)specifies size, format and content of the bound texture and leaves its
parameters alone.  `glTexParameteri` sets one parameter of the bound texture
and raises an error for a value the parameter does not take.  No size limit
and no memory exhaustion is modelled. -/
def GLState.exec (g : GLState) : GLCall → GLState
  | .glBindTexture .GL_TEXTURE_2D t => { g with bound := t }
  | .glTexImage2D .GL_TEXTURE_2D level .GL_RGBA32F width height border .GL_RGBA .GL_FLOAT
      pixels =>
    if width < 0 ∨ height < 0 ∨ border ≠ 0 ∨ level < 0 then g.fail
    else
      match pixels with
      | some data =>
        if (data.length : Int) = width * height then
          g.setBound { g.tex g.bound with
            width := width, height := height, internalformat := some .GL_RGBA32F,
            pixels := some data }
        else g.fail
      | none =>
        g.setBound { g.tex g.bound with
          width := width, height := height, internalformat := some .GL_RGBA32F,
          pixels := none }
  | .glTexImage2D _ _ _ _ _ _ _ _ _ => g.fail
  | .glTexParameteri .GL_TEXTURE_2D .GL_TEXTURE_WRAP_S .GL_REPEAT =>
    g.setBound { g.tex g.bound with wrapS := .GL_REPEAT }
  | .glTexParameteri .GL_TEXTURE_2D .GL_TEXTURE_WRAP_T .GL_REPEAT =>
    g.setBound { g.tex g.bound with wrapT := .GL_REPEAT }
  | .glTexParameteri .GL_TEXTURE_2D .GL_TEXTURE_MAG_FILTER .GL_NEAREST =>
    g.setBound { g.tex g.bound with magFilter := .GL_NEAREST }
  | .glTexParameteri .GL_TEXTURE_2D .GL_TEXTURE_MAG_FILTER .GL_LINEAR =>
    g.setBound { g.tex g.bound with magFilter := .GL_LINEAR }
  | .glTexParameteri .GL_TEXTURE_2D .GL_TEXTURE_MIN_FILTER .GL_NEAREST =>
    g.setBound { g.tex g.bound with minFilter := .GL_NEAREST }
  | .glTexParameteri .GL_TEXTURE_2D .GL_TEXTURE_MIN_FILTER .GL_LINEAR =>
    g.setBound { g.tex g.bound with minFilter := .GL_LINEAR }
  | .glTexParameteri .GL_TEXTURE_2D .GL_TEXTURE_MIN_FILTER .GL_NEAREST_MIPMAP_LINEAR =>
    g.setBound { g.tex g.bound with minFilter := .GL_NEAREST_MIPMAP_LINEAR }
  | .glTexParameteri _ _ _ => g.fail
  | .glBindTexture _ _ => g.fail
  | _ => g

/-- Run a command stream on the context. -/
def GLState.run (g : GLState) (calls : List GLCall) : GLState :=
  calls.foldl GLState.exec g

/-- The layout of a texture: everything but its content. -/
def TexObject.layout (t : TexObject) : Int × Int × Option GLenum × GLenum × GLenum × GLenum × GLenum :=
  (t.width, t.height, t.internalformat, t.wrapS, t.wrapT, t.magFilter, t.minFilter)

/-! ## Frame-rate counter (main.cpp 44-47 and 72-81) -/

/-- Number of values of a `uint32_t`. -/
def UINT32_RANGE : Nat := 4294967296

/-- Largest value of a C `int`. -/
def INT_MAX : Int := 2147483647

/-- `a - b` on `uint32_t`. -/
def sub32 (a b : Nat) : Nat := (a + UINT32_RANGE - b % UINT32_RANGE) % UINT32_RANGE

/-- `a + b` on `uint32_t`. -/
def add32 (a b : Nat) : Nat := (a + b) % UINT32_RANGE

/-- `a * b` on `uint32_t`. -/
def mul32 (a b : Nat) : Nat := (a * b) % UINT32_RANGE

/-- The fps counter variables of `main` and the lines printed to stdout. -/
structure FpsState where
  frames : Int
  fps : Int
  lastUpdate : Nat
  stdout : List String
  deriving DecidableEq

/-- The "update fps counter" block of the main loop (lines 72-81) for the tick
count `time` returned by `SDL_GetTicks()`.  `++frames` on an `int` equal to
`INT_MAX` is undefined behaviour: `none`. -/
def updateFpsCounter (s : FpsState) (time : Nat) : Option FpsState :=
  if s.frames ≥ INT_MAX then none
  else
    let frames := s.frames + 1
    if sub32 time s.lastUpdate ≥ 1000 then
      let lastUpdate := add32 s.lastUpdate (mul32 1000 (sub32 time s.lastUpdate / 1000))
      let fps := frames
      let frames := 0
      some { frames := frames, fps := fps, lastUpdate := lastUpdate,
             stdout := s.stdout ++ ["fps: " ++ toString fps ++ "\n"] }
    else
      some { s with frames := frames }

/-! ## Concrete environments -/

/-- A world in which nothing has happened yet. -/
def World.empty : World := { calls := [], names := 0, stderr := [] }

/-- A concrete driver: every path opens to `file`, the `k`-th object gets the
name `k + 1`, the shader named 1 has compile status `vertexStatus`, every
other shader `fragmentStatus`, every program has link status `linkStatus`, and
every info log is reported with length `len` and returned with `olen`. -/
def sampleDriver (file : Option String) (vertexStatus fragmentStatus linkStatus len olen : Int) :
    Driver where
  openFile := fun _ => file
  name := fun k => k + 1
  shaderiv := fun s p =>
    match p with
    | .GL_COMPILE_STATUS => if s = 1 then vertexStatus else fragmentStatus
    | .GL_INFO_LOG_LENGTH => len
    | _ => 0
  shaderInfoLog := fun s _ => (olen, if s = 1 then "vertex log" else "fragment log")
  programiv := fun _ p =>
    match p with
    | .GL_LINK_STATUS => linkStatus
    | .GL_INFO_LOG_LENGTH => len
    | _ => 0
  programInfoLog := fun _ _ => (olen, "link log")

/-- A file text with a NUL character in the middle. -/
def textWithNul : String := String.mk [Char.ofNat 97, Char.ofNat 0, Char.ofNat 98]

/-- A context with no texture bound, only fresh texture objects, no error. -/
def GLState.start : GLState := { bound := 0, tex := fun _ => TexObject.fresh, error := false }

/-- A black pixel. -/
def vec4.zero : vec4 := { x := 0, y := 0, z := 0, w := 0 }

/-! ## Lemmas: the shader program builder case by case -/

/-- A shader whose compile status is non-zero passes the check: one query, `err` untouched. -/
theorem checkCompileSuccess_ok (d : Driver) (shader : Nat) (err : String) (w : World)
    (h : d.shaderiv shader .GL_COMPILE_STATUS ≠ 0) :
    checkCompileSuccess d shader err w =
      (true, err, w.call (.glGetShaderiv shader .GL_COMPILE_STATUS)) := by
  simp [checkCompileSuccess, h]

/-- A shader whose compile status is zero fails the check: the log is fetched only when the
reported length exceeds 1 and replaces `err` only when `olen > 0`. -/
theorem checkCompileSuccess_fail (d : Driver) (shader : Nat) (err : String) (w : World)
    (h : d.shaderiv shader .GL_COMPILE_STATUS = 0) :
    checkCompileSuccess d shader err w =
      (false,
       if d.shaderiv shader .GL_INFO_LOG_LENGTH > 1 ∧
          (d.shaderInfoLog shader (d.shaderiv shader .GL_INFO_LOG_LENGTH)).1 > 0
       then (d.shaderInfoLog shader (d.shaderiv shader .GL_INFO_LOG_LENGTH)).2 else err,
       { w with calls := w.calls ++
          [.glGetShaderiv shader .GL_COMPILE_STATUS, .glGetShaderiv shader .GL_INFO_LOG_LENGTH] ++
          (if d.shaderiv shader .GL_INFO_LOG_LENGTH > 1
           then [.glGetShaderInfoLog shader (d.shaderiv shader .GL_INFO_LOG_LENGTH)] else []) }) := by
  by_cases hl : d.shaderiv shader .GL_INFO_LOG_LENGTH > 1
  · by_cases ho : (d.shaderInfoLog shader (d.shaderiv shader .GL_INFO_LOG_LENGTH)).1 > 0 <;>
    simp [checkCompileSuccess, h, hl, ho, World.call]
  · simp [checkCompileSuccess, h, hl, World.call]

/-- A program whose link status is non-zero passes the check: one query, `err` untouched. -/
theorem checkLinkSuccess_ok (d : Driver) (program : Nat) (err : String) (w : World)
    (h : d.programiv program .GL_LINK_STATUS ≠ 0) :
    checkLinkSuccess d program err w =
      (true, err, w.call (.glGetProgramiv program .GL_LINK_STATUS)) := by
  simp [checkLinkSuccess, h]

/-- A program whose link status is zero fails the check, with the same log rule as a shader. -/
theorem checkLinkSuccess_fail (d : Driver) (program : Nat) (err : String) (w : World)
    (h : d.programiv program .GL_LINK_STATUS = 0) :
    checkLinkSuccess d program err w =
      (false,
       if d.programiv program .GL_INFO_LOG_LENGTH > 1 ∧
          (d.programInfoLog program (d.programiv program .GL_INFO_LOG_LENGTH)).1 > 0
       then (d.programInfoLog program (d.programiv program .GL_INFO_LOG_LENGTH)).2 else err,
       { w with calls := w.calls ++
          [.glGetProgramiv program .GL_LINK_STATUS, .glGetProgramiv program .GL_INFO_LOG_LENGTH] ++
          (if d.programiv program .GL_INFO_LOG_LENGTH > 1
           then [.glGetProgramInfoLog program (d.programiv program .GL_INFO_LOG_LENGTH)] else []) }) := by
  by_cases hl : d.programiv program .GL_INFO_LOG_LENGTH > 1
  · by_cases ho : (d.programInfoLog program (d.programiv program .GL_INFO_LOG_LENGTH)).1 > 0 <;>
    simp [checkLinkSuccess, h, hl, ho, World.call]
  · simp [checkLinkSuccess, h, hl, World.call]

/-- The whole effect of `compileShaderProgram` when the vertex stage fails to compile. -/
theorem build_vertex_failure (d : Driver) (filename text : String) (w : World)
    (hopen : d.openFile filename = some text)
    (hv : d.shaderiv (d.name w.names) .GL_COMPILE_STATUS = 0) :
    compileShaderProgram d filename w =
      (0,
       { calls := w.calls ++
          [ .glCreateShader .GL_VERTEX_SHADER (d.name w.names)
          , .glShaderSource (d.name w.names) 3
              ["#version 330 core\n", "#define COMPILING_VERTEX_SHADER\n", c_str text]
          , .glCompileShader (d.name w.names)
          , .glGetShaderiv (d.name w.names) .GL_COMPILE_STATUS
          , .glGetShaderiv (d.name w.names) .GL_INFO_LOG_LENGTH ] ++
          (if d.shaderiv (d.name w.names) .GL_INFO_LOG_LENGTH > 1
           then [.glGetShaderInfoLog (d.name w.names)
                  (d.shaderiv (d.name w.names) .GL_INFO_LOG_LENGTH)]
           else []),
         names := w.names + 1,
         stderr := w.stderr ++ ["Vertex shader " ++ filename ++ " failed to compile: " ++
          (if d.shaderiv (d.name w.names) .GL_INFO_LOG_LENGTH > 1 ∧
              (d.shaderInfoLog (d.name w.names)
                (d.shaderiv (d.name w.names) .GL_INFO_LOG_LENGTH)).1 > 0
           then (d.shaderInfoLog (d.name w.names)
                (d.shaderiv (d.name w.names) .GL_INFO_LOG_LENGTH)).2
           else "") ++ "\n"] }) := by
  simp [compileShaderProgram, hopen, World.fresh, checkCompileSuccess_fail, hv, World.call,
    World.eprint]

/-- The whole effect of `compileShaderProgram` when the fragment stage fails to compile. -/
theorem build_fragment_failure (d : Driver) (filename text : String) (w : World)
    (hopen : d.openFile filename = some text)
    (hv : d.shaderiv (d.name w.names) .GL_COMPILE_STATUS ≠ 0)
    (hf : d.shaderiv (d.name (w.names + 1)) .GL_COMPILE_STATUS = 0) :
    compileShaderProgram d filename w =
      (0,
       { calls := w.calls ++
          [ .glCreateShader .GL_VERTEX_SHADER (d.name w.names)
          , .glShaderSource (d.name w.names) 3
              ["#version 330 core\n", "#define COMPILING_VERTEX_SHADER\n", c_str text]
          , .glCompileShader (d.name w.names)
          , .glGetShaderiv (d.name w.names) .GL_COMPILE_STATUS
          , .glCreateShader .GL_FRAGMENT_SHADER (d.name (w.names + 1))
          , .glShaderSource (d.name (w.names + 1)) 3
              ["#version 330 core\n", "#define COMPILING_FRAGMENT_SHADER\n", c_str text]
          , .glCompileShader (d.name (w.names + 1))
          , .glGetShaderiv (d.name (w.names + 1)) .GL_COMPILE_STATUS
          , .glGetShaderiv (d.name (w.names + 1)) .GL_INFO_LOG_LENGTH ] ++
          (if d.shaderiv (d.name (w.names + 1)) .GL_INFO_LOG_LENGTH > 1
           then [.glGetShaderInfoLog (d.name (w.names + 1))
                  (d.shaderiv (d.name (w.names + 1)) .GL_INFO_LOG_LENGTH)]
           else []),
         names := w.names + 2,
         stderr := w.stderr ++ ["Fragment shader " ++ filename ++ " failed to compile: " ++
          (if d.shaderiv (d.name (w.names + 1)) .GL_INFO_LOG_LENGTH > 1 ∧
              (d.shaderInfoLog (d.name (w.names + 1))
                (d.shaderiv (d.name (w.names + 1)) .GL_INFO_LOG_LENGTH)).1 > 0
           then (d.shaderInfoLog (d.name (w.names + 1))
                (d.shaderiv (d.name (w.names + 1)) .GL_INFO_LOG_LENGTH)).2
           else "") ++ "\n"] }) := by
  simp [compileShaderProgram, hopen, World.fresh, checkCompileSuccess_fail,
    checkCompileSuccess_ok, hv, hf, World.call, World.eprint]

/-- The whole effect of `compileShaderProgram` when linking fails. -/
theorem build_link_failure (d : Driver) (filename text : String) (w : World)
    (hopen : d.openFile filename = some text)
    (hv : d.shaderiv (d.name w.names) .GL_COMPILE_STATUS ≠ 0)
    (hf : d.shaderiv (d.name (w.names + 1)) .GL_COMPILE_STATUS ≠ 0)
    (hl : d.programiv (d.name (w.names + 2)) .GL_LINK_STATUS = 0) :
    compileShaderProgram d filename w =
      (0,
       { calls := w.calls ++
          [ .glCreateShader .GL_VERTEX_SHADER (d.name w.names)
          , .glShaderSource (d.name w.names) 3
              ["#version 330 core\n", "#define COMPILING_VERTEX_SHADER\n", c_str text]
          , .glCompileShader (d.name w.names)
          , .glGetShaderiv (d.name w.names) .GL_COMPILE_STATUS
          , .glCreateShader .GL_FRAGMENT_SHADER (d.name (w.names + 1))
          , .glShaderSource (d.name (w.names + 1)) 3
              ["#version 330 core\n", "#define COMPILING_FRAGMENT_SHADER\n", c_str text]
          , .glCompileShader (d.name (w.names + 1))
          , .glGetShaderiv (d.name (w.names + 1)) .GL_COMPILE_STATUS
          , .glCreateProgram (d.name (w.names + 2))
          , .glAttachShader (d.name (w.names + 2)) (d.name w.names)
          , .glAttachShader (d.name (w.names + 2)) (d.name (w.names + 1))
          , .glLinkProgram (d.name (w.names + 2))
          , .glGetProgramiv (d.name (w.names + 2)) .GL_LINK_STATUS
          , .glGetProgramiv (d.name (w.names + 2)) .GL_INFO_LOG_LENGTH ] ++
          (if d.programiv (d.name (w.names + 2)) .GL_INFO_LOG_LENGTH > 1
           then [.glGetProgramInfoLog (d.name (w.names + 2))
                  (d.programiv (d.name (w.names + 2)) .GL_INFO_LOG_LENGTH)]
           else []) ++
          [ .glDeleteProgram (d.name (w.names + 2)) ],
         names := w.names + 3,
         stderr := w.stderr ++ ["Shader program " ++ filename ++ " failed to link: " ++
          (if d.programiv (d.name (w.names + 2)) .GL_INFO_LOG_LENGTH > 1 ∧
              (d.programInfoLog (d.name (w.names + 2))
                (d.programiv (d.name (w.names + 2)) .GL_INFO_LOG_LENGTH)).1 > 0
           then (d.programInfoLog (d.name (w.names + 2))
                (d.programiv (d.name (w.names + 2)) .GL_INFO_LOG_LENGTH)).2
           else "") ++ "\n"] }) := by
  simp [compileShaderProgram, hopen, World.fresh, checkCompileSuccess_ok,
    checkLinkSuccess_fail, hv, hf, hl, World.call, World.eprint]

/-- The whole effect of `compileShaderProgram` when both stages compile and the program links. -/
theorem build_success (d : Driver) (filename text : String) (w : World)
    (hopen : d.openFile filename = some text)
    (hv : d.shaderiv (d.name w.names) .GL_COMPILE_STATUS ≠ 0)
    (hf : d.shaderiv (d.name (w.names + 1)) .GL_COMPILE_STATUS ≠ 0)
    (hl : d.programiv (d.name (w.names + 2)) .GL_LINK_STATUS ≠ 0) :
    compileShaderProgram d filename w =
      (d.name (w.names + 2),
       { calls := w.calls ++
          [ .glCreateShader .GL_VERTEX_SHADER (d.name w.names)
          , .glShaderSource (d.name w.names) 3
              ["#version 330 core\n", "#define COMPILING_VERTEX_SHADER\n", c_str text]
          , .glCompileShader (d.name w.names)
          , .glGetShaderiv (d.name w.names) .GL_COMPILE_STATUS
          , .glCreateShader .GL_FRAGMENT_SHADER (d.name (w.names + 1))
          , .glShaderSource (d.name (w.names + 1)) 3
              ["#version 330 core\n", "#define COMPILING_FRAGMENT_SHADER\n", c_str text]
          , .glCompileShader (d.name (w.names + 1))
          , .glGetShaderiv (d.name (w.names + 1)) .GL_COMPILE_STATUS
          , .glCreateProgram (d.name (w.names + 2))
          , .glAttachShader (d.name (w.names + 2)) (d.name w.names)
          , .glAttachShader (d.name (w.names + 2)) (d.name (w.names + 1))
          , .glLinkProgram (d.name (w.names + 2))
          , .glGetProgramiv (d.name (w.names + 2)) .GL_LINK_STATUS ],
         names := w.names + 3,
         stderr := w.stderr }) := by
  simp [compileShaderProgram, hopen, World.fresh, checkCompileSuccess_ok,
    checkLinkSuccess_ok, hv, hf, hl, World.call]

/-- Dropping a list from the front of an append leaves the rest. -/
theorem drop_length_append (xs ys : List GLCall) : (xs ++ ys).drop xs.length = ys := by
  simp

/-- The file could not be opened: nothing but the diagnostic happens. -/
theorem build_open_failure (d : Driver) (filename : String) (w : World)
    (hopen : d.openFile filename = none) :
    compileShaderProgram d filename w =
      (0, { w with stderr := w.stderr ++ ["Failed to open shader file " ++ filename ++ "\n"] }) := by
  simp [compileShaderProgram, hopen, World.eprint]

/-! ## Shader program builder: failure paths -/

/-- C1: when the file cannot be opened, `compileShaderProgram` returns the invalid handle 0,
writes exactly one diagnostic (the open-failure line naming the path) and issues no GL call:
the command stream and the count of created objects are unchanged. -/
theorem compileShaderProgram_open_failure (d : Driver) (filename : String) (w : World)
    (hopen : d.openFile filename = none) :
    (compileShaderProgram d filename w).1 = 0 ∧
    (compileShaderProgram d filename w).2.stderr =
      w.stderr ++ ["Failed to open shader file " ++ filename ++ "\n"] ∧
    (compileShaderProgram d filename w).2.calls = w.calls ∧
    (compileShaderProgram d filename w).2.names = w.names := by
  simp [build_open_failure d filename w hopen]

/-- Witness for C1 on a driver that opens no file. -/
theorem compileShaderProgram_open_failure_witness :
    (sampleDriver none 1 1 1 0 0).openFile "resources/shaders/textured.glsl" = none ∧
    (compileShaderProgram (sampleDriver none 1 1 1 0 0) "resources/shaders/textured.glsl"
      World.empty).1 = 0 ∧
    (compileShaderProgram (sampleDriver none 1 1 1 0 0) "resources/shaders/textured.glsl"
      World.empty).2.stderr =
        ["Failed to open shader file resources/shaders/textured.glsl\n"] ∧
    (compileShaderProgram (sampleDriver none 1 1 1 0 0) "resources/shaders/textured.glsl"
      World.empty).2.calls = [] ∧
    (compileShaderProgram (sampleDriver none 1 1 1 0 0) "resources/shaders/textured.glsl"
      World.empty).2.names = 0 :=
  ⟨rfl, compileShaderProgram_open_failure (sampleDriver none 1 1 1 0 0)
    "resources/shaders/textured.glsl" World.empty rfl⟩

/-- C2: when the file is readable and the vertex stage's compile status is failure,
`compileShaderProgram` returns 0, writes exactly one diagnostic, the compile-failure line
naming the vertex stage and the path, and the calls it issued are the vertex stage's only:
the one compiler invocation is the vertex compile, the one object created is the vertex
shader, so no fragment shader is created or compiled, no program is created, nothing is
linked. -/
theorem compileShaderProgram_vertex_failure (d : Driver) (filename text : String) (w : World)
    (hopen : d.openFile filename = some text)
    (hv : d.shaderiv (d.name w.names) .GL_COMPILE_STATUS = 0) :
    (compileShaderProgram d filename w).1 = 0 ∧
    (compileShaderProgram d filename w).2.stderr =
      w.stderr ++ ["Vertex shader " ++ filename ++ " failed to compile: " ++
        (if d.shaderiv (d.name w.names) .GL_INFO_LOG_LENGTH > 1 ∧
            (d.shaderInfoLog (d.name w.names)
              (d.shaderiv (d.name w.names) .GL_INFO_LOG_LENGTH)).1 > 0
         then (d.shaderInfoLog (d.name w.names)
              (d.shaderiv (d.name w.names) .GL_INFO_LOG_LENGTH)).2
         else "") ++ "\n"] ∧
    (compileShaderProgram d filename w).2.calls =
      w.calls ++
        [ .glCreateShader .GL_VERTEX_SHADER (d.name w.names)
        , .glShaderSource (d.name w.names) 3
            ["#version 330 core\n", "#define COMPILING_VERTEX_SHADER\n", c_str text]
        , .glCompileShader (d.name w.names)
        , .glGetShaderiv (d.name w.names) .GL_COMPILE_STATUS
        , .glGetShaderiv (d.name w.names) .GL_INFO_LOG_LENGTH ] ++
        (if d.shaderiv (d.name w.names) .GL_INFO_LOG_LENGTH > 1
         then [.glGetShaderInfoLog (d.name w.names)
                (d.shaderiv (d.name w.names) .GL_INFO_LOG_LENGTH)]
         else []) ∧
    (attemptCalls d filename w).filter isCompileOrLink = [.glCompileShader (d.name w.names)] ∧
    (attemptCalls d filename w).filter isCreation =
      [.glCreateShader .GL_VERTEX_SHADER (d.name w.names)] := by
  rw [attemptCalls, build_vertex_failure d filename text w hopen hv]
  refine ⟨rfl, rfl, rfl, ?_, ?_⟩
  · by_cases hl : d.shaderiv (d.name w.names) .GL_INFO_LOG_LENGTH > 1 <;>
    simp [hl, List.append_assoc, isCompileOrLink]
  · by_cases hl : d.shaderiv (d.name w.names) .GL_INFO_LOG_LENGTH > 1 <;>
    simp [hl, List.append_assoc, isCreation]

/-- Witness for C2: the vertex stage fails and reports a log. -/
theorem compileShaderProgram_vertex_failure_witness :
    compileShaderProgram (sampleDriver (some "void main();") 0 1 1 11 10) "textured.glsl"
      World.empty =
      (0, { calls :=
              [ .glCreateShader .GL_VERTEX_SHADER 1
              , .glShaderSource 1 3
                  ["#version 330 core\n", "#define COMPILING_VERTEX_SHADER\n", "void main();"]
              , .glCompileShader 1
              , .glGetShaderiv 1 .GL_COMPILE_STATUS
              , .glGetShaderiv 1 .GL_INFO_LOG_LENGTH
              , .glGetShaderInfoLog 1 11 ],
            names := 1,
            stderr := ["Vertex shader textured.glsl failed to compile: vertex log\n"] }) ∧
    (attemptCalls (sampleDriver (some "void main();") 0 1 1 11 10) "textured.glsl"
      World.empty).filter isCompileOrLink = [.glCompileShader 1] := by
  have h := compileShaderProgram_vertex_failure (sampleDriver (some "void main();") 0 1 1 11 10)
    "textured.glsl" "void main();" World.empty rfl rfl
  exact ⟨by decide, h.2.2.2.1⟩

/-- C3: when the file is readable, both stages compile and the link status is failure,
`compileShaderProgram` returns 0, writes exactly one diagnostic, the link-failure line naming
the path, and the last call it issues is `glDeleteProgram` on the very program object that
its `glCreateProgram` returned. -/
theorem compileShaderProgram_link_failure (d : Driver) (filename text : String) (w : World)
    (hopen : d.openFile filename = some text)
    (hv : d.shaderiv (d.name w.names) .GL_COMPILE_STATUS ≠ 0)
    (hf : d.shaderiv (d.name (w.names + 1)) .GL_COMPILE_STATUS ≠ 0)
    (hl : d.programiv (d.name (w.names + 2)) .GL_LINK_STATUS = 0) :
    (compileShaderProgram d filename w).1 = 0 ∧
    (compileShaderProgram d filename w).2.stderr =
      w.stderr ++ ["Shader program " ++ filename ++ " failed to link: " ++
        (if d.programiv (d.name (w.names + 2)) .GL_INFO_LOG_LENGTH > 1 ∧
            (d.programInfoLog (d.name (w.names + 2))
              (d.programiv (d.name (w.names + 2)) .GL_INFO_LOG_LENGTH)).1 > 0
         then (d.programInfoLog (d.name (w.names + 2))
              (d.programiv (d.name (w.names + 2)) .GL_INFO_LOG_LENGTH)).2
         else "") ++ "\n"] ∧
    (attemptCalls d filename w).filter isCreation =
      [ .glCreateShader .GL_VERTEX_SHADER (d.name w.names)
      , .glCreateShader .GL_FRAGMENT_SHADER (d.name (w.names + 1))
      , .glCreateProgram (d.name (w.names + 2)) ] ∧
    (attemptCalls d filename w).getLast? = some (.glDeleteProgram (d.name (w.names + 2))) ∧
    (compileShaderProgram d filename w).2.calls = w.calls ++ attemptCalls d filename w := by
  rw [attemptCalls, build_link_failure d filename text w hopen hv hf hl]
  refine ⟨rfl, rfl, ?_, ?_, ?_⟩
  · by_cases hlen : d.programiv (d.name (w.names + 2)) .GL_INFO_LOG_LENGTH > 1 <;>
    simp [hlen, List.append_assoc, isCreation]
  · by_cases hlen : d.programiv (d.name (w.names + 2)) .GL_INFO_LOG_LENGTH > 1 <;>
    simp [hlen, List.append_assoc]
  · simp [List.append_assoc]

/-- Witness for C3: both stages compile, the link fails with an empty log. -/
theorem compileShaderProgram_link_failure_witness :
    (compileShaderProgram (sampleDriver (some "void main();") 1 1 0 1 0) "textured.glsl"
      World.empty).1 = 0 ∧
    (compileShaderProgram (sampleDriver (some "void main();") 1 1 0 1 0) "textured.glsl"
      World.empty).2.stderr = ["Shader program textured.glsl failed to link: \n"] ∧
    (attemptCalls (sampleDriver (some "void main();") 1 1 0 1 0) "textured.glsl"
      World.empty).getLast? = some (.glDeleteProgram 3) := by
  have h := compileShaderProgram_link_failure (sampleDriver (some "void main();") 1 1 0 1 0)
    "textured.glsl" "void main();" World.empty rfl (by decide) (by decide) rfl
  exact ⟨h.1, by decide, h.2.2.2.1⟩

/-! ## Shader program builder: released objects -/

/-- C4 fails as stated: on a vertex compile failure the build returns 0 while the vertex
shader it created is still live (never deleted). -/
theorem failed_build_leaves_shader_live :
    (sampleDriver (some "void main();") 0 1 1 0 0).openFile "textured.glsl" =
      some "void main();" ∧
    (sampleDriver (some "void main();") 0 1 1 0 0).shaderiv 1 .GL_COMPILE_STATUS = 0 ∧
    (compileShaderProgram (sampleDriver (some "void main();") 0 1 1 0 0) "textured.glsl"
      World.empty).1 = 0 ∧
    liveObjects (attemptCalls (sampleDriver (some "void main();") 0 1 1 0 0) "textured.glsl"
      World.empty) = [.shader 1] ∧
    liveObjects (attemptCalls (sampleDriver (some "void main();") 0 1 1 0 0) "textured.glsl"
      World.empty) ≠ [] := by
  decide

/-- C4 amended: a failed build releases the program object and nothing else.  After a vertex
compile failure the vertex shader is the one live object of the attempt; after a fragment
compile failure or a link failure the two shaders are; on a link failure the program object
was created and `glDeleteProgram` on it is the last call, so it is not live.  No path of
the build, successful or not, issues `glDeleteShader`. -/
theorem failed_build_live_objects (d : Driver) (filename text : String) (w : World)
    (hopen : d.openFile filename = some text) :
    (d.shaderiv (d.name w.names) .GL_COMPILE_STATUS = 0 →
      liveObjects (attemptCalls d filename w) = [.shader (d.name w.names)]) ∧
    (d.shaderiv (d.name w.names) .GL_COMPILE_STATUS ≠ 0 →
      d.shaderiv (d.name (w.names + 1)) .GL_COMPILE_STATUS = 0 →
      liveObjects (attemptCalls d filename w) =
        [.shader (d.name w.names), .shader (d.name (w.names + 1))]) ∧
    (d.shaderiv (d.name w.names) .GL_COMPILE_STATUS ≠ 0 →
      d.shaderiv (d.name (w.names + 1)) .GL_COMPILE_STATUS ≠ 0 →
      d.programiv (d.name (w.names + 2)) .GL_LINK_STATUS = 0 →
      liveObjects (attemptCalls d filename w) =
        [.shader (d.name w.names), .shader (d.name (w.names + 1))] ∧
      .glCreateProgram (d.name (w.names + 2)) ∈ attemptCalls d filename w ∧
      (attemptCalls d filename w).getLast? = some (.glDeleteProgram (d.name (w.names + 2)))) ∧
    (∀ n, GLCall.glDeleteShader n ∉ attemptCalls d filename w) := by
  refine ⟨?_, ?_, ?_, ?_⟩
  · intro hv
    rw [attemptCalls, build_vertex_failure d filename text w hopen hv]
    by_cases h1 : d.shaderiv (d.name w.names) .GL_INFO_LOG_LENGTH > 1 <;>
    simp [h1, List.append_assoc, liveObjects, liveStep]
  · intro hv hf
    rw [attemptCalls, build_fragment_failure d filename text w hopen hv hf]
    by_cases h1 : d.shaderiv (d.name (w.names + 1)) .GL_INFO_LOG_LENGTH > 1 <;>
    simp [h1, List.append_assoc, liveObjects, liveStep]
  · intro hv hf hl
    rw [attemptCalls, build_link_failure d filename text w hopen hv hf hl]
    by_cases h1 : d.programiv (d.name (w.names + 2)) .GL_INFO_LOG_LENGTH > 1 <;>
    simp [h1, List.append_assoc, liveObjects, liveStep]
  · intro n
    rw [attemptCalls]
    by_cases hv : d.shaderiv (d.name w.names) .GL_COMPILE_STATUS = 0
    · rw [build_vertex_failure d filename text w hopen hv]
      by_cases h1 : d.shaderiv (d.name w.names) .GL_INFO_LOG_LENGTH > 1 <;>
      simp [h1, List.append_assoc]
    · by_cases hf : d.shaderiv (d.name (w.names + 1)) .GL_COMPILE_STATUS = 0
      · rw [build_fragment_failure d filename text w hopen hv hf]
        by_cases h1 : d.shaderiv (d.name (w.names + 1)) .GL_INFO_LOG_LENGTH > 1 <;>
        simp [h1, List.append_assoc]
      · by_cases hl : d.programiv (d.name (w.names + 2)) .GL_LINK_STATUS = 0
        · rw [build_link_failure d filename text w hopen hv hf hl]
          by_cases h1 : d.programiv (d.name (w.names + 2)) .GL_INFO_LOG_LENGTH > 1 <;>
          simp [h1, List.append_assoc]
        · rw [build_success d filename text w hopen hv hf hl]
          simp [List.append_assoc]

/-- Witness for C4 amended: the three failure paths on concrete drivers. -/
theorem failed_build_live_objects_witness :
    liveObjects (attemptCalls (sampleDriver (some "void main();") 0 1 1 0 0) "textured.glsl"
      World.empty) = [.shader 1] ∧
    liveObjects (attemptCalls (sampleDriver (some "void main();") 1 0 1 0 0) "textured.glsl"
      World.empty) = [.shader 1, .shader 2] ∧
    liveObjects (attemptCalls (sampleDriver (some "void main();") 1 1 0 0 0) "textured.glsl"
      World.empty) = [.shader 1, .shader 2] :=
  ⟨(failed_build_live_objects (sampleDriver (some "void main();") 0 1 1 0 0) "textured.glsl"
      "void main();" World.empty rfl).1 rfl,
   (failed_build_live_objects (sampleDriver (some "void main();") 1 0 1 0 0) "textured.glsl"
      "void main();" World.empty rfl).2.1 (by decide) rfl,
   ((failed_build_live_objects (sampleDriver (some "void main();") 1 1 0 0 0) "textured.glsl"
      "void main();" World.empty rfl).2.2.1 (by decide) (by decide) rfl).1⟩

/-! ## Shader program builder: the result is all or nothing -/

/-- No character of a prefix taken up to the first `c` is `c`. -/
theorem not_mem_takeWhile_ne (c : Char) (l : List Char) :
    c ∉ l.takeWhile (fun x => x ≠ c) := by
  induction l with
  | nil => simp
  | cons a t ih =>
    by_cases h : a = c
    · simp [List.takeWhile, h]
    · simp only [List.takeWhile_cons, ne_eq, h, not_false_eq_true, decide_True, if_true,
        List.mem_cons, not_or]
      exact ⟨fun e => h e.symm, ih⟩

/-- A list without `c` is its own prefix up to the first `c`. -/
theorem takeWhile_ne_eq_self (c : Char) (l : List Char) (h : c ∉ l) :
    l.takeWhile (fun x => x ≠ c) = l := by
  induction l with
  | nil => simp
  | cons a t ih =>
    simp only [List.mem_cons, not_or] at h
    have ha : a ≠ c := fun e => h.1 e.symm
    simp only [List.takeWhile_cons, ne_eq, ha, not_false_eq_true, decide_True, if_true,
      ih h.2]

/-- A list with `c` is the prefix up to the first `c`, then `c`, then a rest. -/
theorem takeWhile_ne_split (c : Char) (l : List Char) (h : c ∈ l) :
    ∃ rest, l = l.takeWhile (fun x => x ≠ c) ++ c :: rest := by
  induction l with
  | nil => simp at h
  | cons a t ih =>
    by_cases ha : a = c
    · exact ⟨t, by simp [List.takeWhile_cons, ha]⟩
    · have ht : c ∈ t := by
        rcases List.mem_cons.mp h with e | e
        · exact absurd e.symm ha
        · exact e
      obtain ⟨rest, hr⟩ := ih ht
      refine ⟨rest, ?_⟩
      simp only [List.takeWhile_cons, ne_eq, ha, not_false_eq_true, decide_True, if_true,
        List.cons_append]
      rw [← hr]

/-- C6 fails as stated: for a file text with a NUL character the third fragment handed to
the compiler is not the raw file text but its part before the NUL. -/
theorem shader_source_cut_at_nul :
    (sampleDriver (some textWithNul) 1 1 1 0 0).openFile "textured.glsl" = some textWithNul ∧
    shaderSources (attemptCalls (sampleDriver (some textWithNul) 1 1 1 0 0) "textured.glsl"
      World.empty) =
      [ (1, 3, ["#version 330 core\n", "#define COMPILING_VERTEX_SHADER\n", "a"])
      , (2, 3, ["#version 330 core\n", "#define COMPILING_FRAGMENT_SHADER\n", "a"]) ] ∧
    textWithNul.length = 3 ∧
    textWithNul ≠ "a" := by
  decide

/-- C6 amended: the source handed to the compiler for a stage is an ordered list of exactly
three fragments: the fixed version header, the stage's definition
(`COMPILING_VERTEX_SHADER` for the vertex stage, `COMPILING_FRAGMENT_SHADER` for the fragment
stage, which is reached when the vertex stage compiled), then the file text as a C string:
the raw file text unchanged when it has no NUL character, its part before the first NUL
otherwise.  The two lists differ in the definition only. -/
theorem compileShaderProgram_sources (d : Driver) (filename text : String) (w : World)
    (hopen : d.openFile filename = some text) :
    shaderSources (attemptCalls d filename w) =
      (d.name w.names, 3,
        ["#version 330 core\n", "#define COMPILING_VERTEX_SHADER\n", c_str text]) ::
      (if d.shaderiv (d.name w.names) .GL_COMPILE_STATUS = 0 then []
       else [(d.name (w.names + 1), 3,
        ["#version 330 core\n", "#define COMPILING_FRAGMENT_SHADER\n", c_str text])]) ∧
    (Char.ofNat 0 ∉ text.data → c_str text = text) ∧
    (Char.ofNat 0 ∈ text.data →
      ∃ rest, text.data = (c_str text).data ++ Char.ofNat 0 :: rest) ∧
    Char.ofNat 0 ∉ (c_str text).data := by
  refine ⟨?_, ?_, ?_, ?_⟩
  · rw [attemptCalls]
    by_cases hv : d.shaderiv (d.name w.names) .GL_COMPILE_STATUS = 0
    · rw [build_vertex_failure d filename text w hopen hv]
      by_cases h1 : d.shaderiv (d.name w.names) .GL_INFO_LOG_LENGTH > 1 <;>
      simp [hv, h1, List.append_assoc, shaderSources]
    · by_cases hf : d.shaderiv (d.name (w.names + 1)) .GL_COMPILE_STATUS = 0
      · rw [build_fragment_failure d filename text w hopen hv hf]
        by_cases h1 : d.shaderiv (d.name (w.names + 1)) .GL_INFO_LOG_LENGTH > 1 <;>
        simp [hv, h1, List.append_assoc, shaderSources]
      · by_cases hl : d.programiv (d.name (w.names + 2)) .GL_LINK_STATUS = 0
        · rw [build_link_failure d filename text w hopen hv hf hl]
          by_cases h1 : d.programiv (d.name (w.names + 2)) .GL_INFO_LOG_LENGTH > 1 <;>
          simp [hv, h1, List.append_assoc, shaderSources]
        · rw [build_success d filename text w hopen hv hf hl]
          simp [hv, List.append_assoc, shaderSources]
  · intro h
    have := takeWhile_ne_eq_self (Char.ofNat 0) text.data h
    simp only [c_str, this]
  · intro h
    exact takeWhile_ne_split (Char.ofNat 0) text.data h
  · exact not_mem_takeWhile_ne (Char.ofNat 0) text.data

/-- Witness for C6 amended: a plain text reaches both stages unchanged. -/
theorem compileShaderProgram_sources_witness :
    shaderSources (attemptCalls (sampleDriver (some "void main();") 1 1 1 0 0) "textured.glsl"
      World.empty) =
      [ (1, 3, ["#version 330 core\n", "#define COMPILING_VERTEX_SHADER\n", c_str "void main();"])
      , (2, 3, ["#version 330 core\n", "#define COMPILING_FRAGMENT_SHADER\n", c_str "void main();"]) ] ∧
    c_str "void main();" = "void main();" :=
  ⟨(compileShaderProgram_sources (sampleDriver (some "void main();") 1 1 1 0 0)
      "textured.glsl" "void main();" World.empty rfl).1,
   (compileShaderProgram_sources (sampleDriver (some "void main();") 1 1 1 0 0)
      "textured.glsl" "void main();" World.empty rfl).2.1 (by decide)⟩

/-! ## Shader program builder: the log in a diagnostic -/

/-- C7: the same rule gives the log part of the compile and of the link diagnostic.  For the
stage that fails (vertex; fragment after a compiled vertex stage; link after two compiled
stages): when the driver reports an info-log length of at most 1 the log is not fetched and
the log part is empty; when the length exceeds 1 and the fetch returns `olen > 0` the log
part is exactly the text returned for the failing object; when the fetch returns no
characters the log part is empty.  In no case does it hold text of an earlier stage. -/
theorem compileShaderProgram_log_rule (d : Driver) (filename text : String) (w : World)
    (hopen : d.openFile filename = some text) :
    (d.shaderiv (d.name w.names) .GL_COMPILE_STATUS = 0 →
      (d.shaderiv (d.name w.names) .GL_INFO_LOG_LENGTH ≤ 1 →
        attemptDiagnostics d filename w =
          ["Vertex shader " ++ filename ++ " failed to compile: " ++ "" ++ "\n"] ∧
        (attemptCalls d filename w).countP isLogFetch = 0) ∧
      (1 < d.shaderiv (d.name w.names) .GL_INFO_LOG_LENGTH →
        0 < (d.shaderInfoLog (d.name w.names)
              (d.shaderiv (d.name w.names) .GL_INFO_LOG_LENGTH)).1 →
        attemptDiagnostics d filename w =
          ["Vertex shader " ++ filename ++ " failed to compile: " ++
            (d.shaderInfoLog (d.name w.names)
              (d.shaderiv (d.name w.names) .GL_INFO_LOG_LENGTH)).2 ++ "\n"]) ∧
      (1 < d.shaderiv (d.name w.names) .GL_INFO_LOG_LENGTH →
        (d.shaderInfoLog (d.name w.names)
              (d.shaderiv (d.name w.names) .GL_INFO_LOG_LENGTH)).1 ≤ 0 →
        attemptDiagnostics d filename w =
          ["Vertex shader " ++ filename ++ " failed to compile: " ++ "" ++ "\n"])) ∧
    (d.shaderiv (d.name w.names) .GL_COMPILE_STATUS ≠ 0 →
      d.shaderiv (d.name (w.names + 1)) .GL_COMPILE_STATUS = 0 →
      (d.shaderiv (d.name (w.names + 1)) .GL_INFO_LOG_LENGTH ≤ 1 →
        attemptDiagnostics d filename w =
          ["Fragment shader " ++ filename ++ " failed to compile: " ++ "" ++ "\n"] ∧
        (attemptCalls d filename w).countP isLogFetch = 0) ∧
      (1 < d.shaderiv (d.name (w.names + 1)) .GL_INFO_LOG_LENGTH →
        0 < (d.shaderInfoLog (d.name (w.names + 1))
              (d.shaderiv (d.name (w.names + 1)) .GL_INFO_LOG_LENGTH)).1 →
        attemptDiagnostics d filename w =
          ["Fragment shader " ++ filename ++ " failed to compile: " ++
            (d.shaderInfoLog (d.name (w.names + 1))
              (d.shaderiv (d.name (w.names + 1)) .GL_INFO_LOG_LENGTH)).2 ++ "\n"]) ∧
      (1 < d.shaderiv (d.name (w.names + 1)) .GL_INFO_LOG_LENGTH →
        (d.shaderInfoLog (d.name (w.names + 1))
              (d.shaderiv (d.name (w.names + 1)) .GL_INFO_LOG_LENGTH)).1 ≤ 0 →
        attemptDiagnostics d filename w =
          ["Fragment shader " ++ filename ++ " failed to compile: " ++ "" ++ "\n"])) ∧
    (d.shaderiv (d.name w.names) .GL_COMPILE_STATUS ≠ 0 →
      d.shaderiv (d.name (w.names + 1)) .GL_COMPILE_STATUS ≠ 0 →
      d.programiv (d.name (w.names + 2)) .GL_LINK_STATUS = 0 →
      (d.programiv (d.name (w.names + 2)) .GL_INFO_LOG_LENGTH ≤ 1 →
        attemptDiagnostics d filename w =
          ["Shader program " ++ filename ++ " failed to link: " ++ "" ++ "\n"] ∧
        (attemptCalls d filename w).countP isLogFetch = 0) ∧
      (1 < d.programiv (d.name (w.names + 2)) .GL_INFO_LOG_LENGTH →
        0 < (d.programInfoLog (d.name (w.names + 2))
              (d.programiv (d.name (w.names + 2)) .GL_INFO_LOG_LENGTH)).1 →
        attemptDiagnostics d filename w =
          ["Shader program " ++ filename ++ " failed to link: " ++
            (d.programInfoLog (d.name (w.names + 2))
              (d.programiv (d.name (w.names + 2)) .GL_INFO_LOG_LENGTH)).2 ++ "\n"]) ∧
      (1 < d.programiv (d.name (w.names + 2)) .GL_INFO_LOG_LENGTH →
        (d.programInfoLog (d.name (w.names + 2))
              (d.programiv (d.name (w.names + 2)) .GL_INFO_LOG_LENGTH)).1 ≤ 0 →
        attemptDiagnostics d filename w =
          ["Shader program " ++ filename ++ " failed to link: " ++ "" ++ "\n"])) ∧
    (compileShaderProgram d filename w).2.stderr = w.stderr ++ attemptDiagnostics d filename w := by
  refine ⟨?_, ?_, ?_, ?_⟩
  · intro hv
    rw [attemptDiagnostics, attemptCalls, build_vertex_failure d filename text w hopen hv]
    refine ⟨fun h => ?_, fun h ho => ?_, fun h ho => ?_⟩
    · have h' := not_lt.mpr h
      simp [h', List.append_assoc, isLogFetch]
    · simp [h, ho]
    · have ho' := not_lt.mpr ho
      simp [ho']
  · intro hv hf
    rw [attemptDiagnostics, attemptCalls, build_fragment_failure d filename text w hopen hv hf]
    refine ⟨fun h => ?_, fun h ho => ?_, fun h ho => ?_⟩
    · have h' := not_lt.mpr h
      simp [h', List.append_assoc, isLogFetch]
    · simp [h, ho]
    · have ho' := not_lt.mpr ho
      simp [ho']
  · intro hv hf hl
    rw [attemptDiagnostics, attemptCalls, build_link_failure d filename text w hopen hv hf hl]
    refine ⟨fun h => ?_, fun h ho => ?_, fun h ho => ?_⟩
    · have h' := not_lt.mpr h
      simp [h', List.append_assoc, isLogFetch]
    · simp [h, ho]
    · have ho' := not_lt.mpr ho
      simp [ho']
  · rw [attemptDiagnostics]
    by_cases hv : d.shaderiv (d.name w.names) .GL_COMPILE_STATUS = 0
    · simp [build_vertex_failure d filename text w hopen hv]
    · by_cases hf : d.shaderiv (d.name (w.names + 1)) .GL_COMPILE_STATUS = 0
      · simp [build_fragment_failure d filename text w hopen hv hf]
      · by_cases hl : d.programiv (d.name (w.names + 2)) .GL_LINK_STATUS = 0
        · simp [build_link_failure d filename text w hopen hv hf hl]
        · simp [build_success d filename text w hopen hv hf hl]

/-- Witness for C7: a vertex failure with reported length 1, a fragment failure with a
12-character log, a link failure with reported length 1. -/
theorem compileShaderProgram_log_rule_witness :
    attemptDiagnostics (sampleDriver (some "void main();") 0 1 1 1 0) "textured.glsl"
      World.empty = ["Vertex shader textured.glsl failed to compile: \n"] ∧
    attemptDiagnostics (sampleDriver (some "void main();") 1 0 1 13 12) "textured.glsl"
      World.empty = ["Fragment shader textured.glsl failed to compile: fragment log\n"] ∧
    attemptDiagnostics (sampleDriver (some "void main();") 1 1 0 1 0) "textured.glsl"
      World.empty = ["Shader program textured.glsl failed to link: \n"] :=
  ⟨(((compileShaderProgram_log_rule (sampleDriver (some "void main();") 0 1 1 1 0)
      "textured.glsl" "void main();" World.empty rfl).1 rfl).1 (by decide)).1,
   ((compileShaderProgram_log_rule (sampleDriver (some "void main();") 1 0 1 13 12)
      "textured.glsl" "void main();" World.empty rfl).2.1 (by decide) rfl).2.1
      (by decide) (by decide),
   (((compileShaderProgram_log_rule (sampleDriver (some "void main();") 1 1 0 1 0)
      "textured.glsl" "void main();" World.empty rfl).2.2.1 (by decide) (by decide) rfl).1
      (by decide)).1⟩

/-! ## Quad renderer -/

/-- The first call of `drawFullscreenQuad` initialises the buffer, then draws. -/
theorem drawFullscreenQuad_first (d : Driver) (s : QuadStatics) (w : World)
    (h : s.init = false) :
    drawFullscreenQuad d s w =
      ({ init := true, vbo := d.name w.names },
       { calls := w.calls ++ initCalls (d.name w.names) ++ drawCalls (d.name w.names),
         names := w.names + 1, stderr := w.stderr }) := by
  simp [drawFullscreenQuad, h, World.fresh, World.call, initCalls, drawCalls, quad,
    sizeof_float]

/-- A later call of `drawFullscreenQuad` only draws, with the stored buffer. -/
theorem drawFullscreenQuad_next (d : Driver) (s : QuadStatics) (w : World)
    (h : s.init = true) :
    drawFullscreenQuad d s w = (s, { w with calls := w.calls ++ drawCalls s.vbo }) := by
  simp [drawFullscreenQuad, h, World.call, drawCalls, sizeof_float]

/-- The whole effect of `n + 1` consecutive calls from program start. -/
theorem drawFrames_succ (d : Driver) (w : World) (n : Nat) :
    drawFrames d (n + 1) (QuadStatics.start, w) =
      ({ init := true, vbo := d.name w.names },
       { calls := w.calls ++ initCalls (d.name w.names) ++
           repeatCalls (n + 1) (drawCalls (d.name w.names)),
         names := w.names + 1, stderr := w.stderr }) := by
  induction n with
  | zero =>
    simp [drawFrames, drawFullscreenQuad_first, QuadStatics.start, repeatCalls]
  | succ k ih =>
    rw [drawFrames, ih]
    simp [drawFullscreenQuad_next, repeatCalls]

/-- Counting in a repeated list. -/
theorem countP_repeatCalls (p : GLCall → Bool) (n : Nat) (xs : List GLCall) :
    (repeatCalls n xs).countP p = n * xs.countP p := by
  induction n with
  | zero => simp [repeatCalls]
  | succ k ih => simp [repeatCalls, ih, Nat.succ_mul]

/-- C8: for every N >= 1, N consecutive calls of `drawFullscreenQuad` from program start
issue the initialisation calls once and the drawing calls N times, with one buffer name
throughout: exactly one `glGenBuffers`, exactly one `glBufferData` (of `quad`, 16 floats),
exactly N draws of 4 vertices, no binding of another buffer; the first call issues
initialisation and drawing, every later call the drawing calls only. -/
theorem drawFullscreenQuad_lazy_init (d : Driver) (w : World) (N : Nat) (hN : 1 ≤ N) :
    (drawFrames d N (QuadStatics.start, w)).2.calls =
      w.calls ++ initCalls (d.name w.names) ++ repeatCalls N (drawCalls (d.name w.names)) ∧
    (drawFrames d N (QuadStatics.start, w)).1 = { init := true, vbo := d.name w.names } ∧
    ((drawFrames d N (QuadStatics.start, w)).2.calls.drop w.calls.length).countP isAllocation = 1 ∧
    ((drawFrames d N (QuadStatics.start, w)).2.calls.drop w.calls.length).countP isUpload = 1 ∧
    ((drawFrames d N (QuadStatics.start, w)).2.calls.drop w.calls.length).countP isDraw = N ∧
    ((drawFrames d N (QuadStatics.start, w)).2.calls.drop w.calls.length).countP
      (bindsOther (d.name w.names)) = 0 ∧
    frameCalls d w 0 = initCalls (d.name w.names) ++ drawCalls (d.name w.names) ∧
    (∀ k, 1 ≤ k → k < N → frameCalls d w k = drawCalls (d.name w.names)) ∧
    quad.length = 16 := by
  obtain ⟨n, rfl⟩ : ∃ n, N = n + 1 := ⟨N - 1, by omega⟩
  rw [drawFrames_succ]
  refine ⟨rfl, rfl, ?_, ?_, ?_, ?_, ?_, ?_, rfl⟩
  · simp [List.append_assoc, countP_repeatCalls, initCalls, drawCalls, isAllocation]
  · simp [List.append_assoc, countP_repeatCalls, initCalls, drawCalls, isUpload, quad]
  · simp [List.append_assoc, countP_repeatCalls, initCalls, drawCalls, isDraw]
  · simp [List.append_assoc, countP_repeatCalls, initCalls, drawCalls, bindsOther]
  · show ((drawFrames d (0 + 1) (QuadStatics.start, w)).2.calls.drop
      (drawFrames d 0 (QuadStatics.start, w)).2.calls.length) = _
    rw [drawFrames_succ]
    simp [drawFrames, repeatCalls, List.append_assoc]
  · intro k hk _
    obtain ⟨j, rfl⟩ : ∃ j, k = j + 1 := ⟨k - 1, by omega⟩
    simp [frameCalls, drawFrames_succ, repeatCalls, ← List.append_assoc]

/-- Witness for C8: three frames. -/
theorem drawFullscreenQuad_lazy_init_witness :
    ((drawFrames (sampleDriver none 0 0 0 0 0) 3 (QuadStatics.start, World.empty)).2.calls.drop
      World.empty.calls.length).countP isAllocation = 1 ∧
    ((drawFrames (sampleDriver none 0 0 0 0 0) 3 (QuadStatics.start, World.empty)).2.calls.drop
      World.empty.calls.length).countP isUpload = 1 ∧
    ((drawFrames (sampleDriver none 0 0 0 0 0) 3 (QuadStatics.start, World.empty)).2.calls.drop
      World.empty.calls.length).countP isDraw = 3 :=
  ⟨(drawFullscreenQuad_lazy_init (sampleDriver none 0 0 0 0 0) World.empty 3
      (by decide)).2.2.1,
   (drawFullscreenQuad_lazy_init (sampleDriver none 0 0 0 0 0) World.empty 3
      (by decide)).2.2.2.1,
   (drawFullscreenQuad_lazy_init (sampleDriver none 0 0 0 0 0) World.empty 3
      (by decide)).2.2.2.2.1⟩

/-! ## Texture store -/

/-- The calls of texture creation followed by the upload. -/
theorem createAndUpload_eq (d : Driver) (width height : Int) (data : List vec4) (w : World) :
    createAndUpload d width height data w =
      (d.name w.names,
       { calls := w.calls ++
          [ .glGenTextures 1 (d.name w.names)
          , .glBindTexture .GL_TEXTURE_2D (d.name w.names)
          , .glTexImage2D .GL_TEXTURE_2D 0 .GL_RGBA32F width height 0 .GL_RGBA .GL_FLOAT none
          , .glTexParameteri .GL_TEXTURE_2D .GL_TEXTURE_WRAP_S .GL_REPEAT
          , .glTexParameteri .GL_TEXTURE_2D .GL_TEXTURE_WRAP_T .GL_REPEAT
          , .glTexParameteri .GL_TEXTURE_2D .GL_TEXTURE_MAG_FILTER .GL_NEAREST
          , .glTexParameteri .GL_TEXTURE_2D .GL_TEXTURE_MIN_FILTER .GL_NEAREST
          , .glBindTexture .GL_TEXTURE_2D (d.name w.names)
          , .glTexImage2D .GL_TEXTURE_2D 0 .GL_RGBA32F width height 0 .GL_RGBA .GL_FLOAT
              (some data) ],
         names := w.names + 1, stderr := w.stderr }) := by
  simp [createAndUpload, createTexture, uploadTexture, World.fresh, World.call]

/-- C9: for every width > 0 and height > 0 and every buffer of exactly width * height
pixels, `createTexture` followed by the upload of `main` raises no error in the texture
model, and the texture afterwards has the layout it had after `createTexture`: the same
width and height, format RGBA32F, wrap = repeat on both axes, mag and min filter = nearest;
its content is the uploaded buffer. -/
theorem createTexture_upload_keeps_layout (d : Driver) (width height : Int) (data : List vec4) (w : World) (g : GLState)
    (hw : 0 < width) (hh : 0 < height) (hdata : (data.length : Int) = width * height)
    (hg : g.error = false) :
    let tex := (createTexture d width height w).1
    let created := g.run ((createTexture d width height w).2.calls.drop w.calls.length)
    let uploaded := g.run ((createAndUpload d width height data w).2.calls.drop w.calls.length)
    (createAndUpload d width height data w).1 = tex ∧
    created.error = false ∧
    uploaded.error = false ∧
    (created.tex tex).layout =
      (width, height, some .GL_RGBA32F, .GL_REPEAT, .GL_REPEAT, .GL_NEAREST, .GL_NEAREST) ∧
    (uploaded.tex tex).layout = (created.tex tex).layout ∧
    (uploaded.tex tex).pixels = some data := by
  have h1 : ¬ width < 0 := by omega
  have h2 : ¬ height < 0 := by omega
  simp [createAndUpload_eq, createTexture, World.fresh, World.call, GLState.run, GLState.exec,
    GLState.setBound, GLState.fail, TexObject.layout, h1, h2, hdata, hg]

/-- Witness for C9: a 2 x 1 texture and two pixels. -/
theorem createTexture_upload_keeps_layout_witness :
    (0 : Int) < 2 ∧ (0 : Int) < 1 ∧
    ((GLState.start.run ((createAndUpload (sampleDriver none 0 0 0 0 0) 2 1
        [vec4.zero, vec4.zero] World.empty).2.calls.drop World.empty.calls.length)).error =
      false) :=
  ⟨by decide, by decide,
   (createTexture_upload_keeps_layout (sampleDriver none 0 0 0 0 0) 2 1
      [vec4.zero, vec4.zero] World.empty GLState.start (by decide) (by decide) (by decide)
      rfl).2.2.1⟩

/-! ## Frame-rate counter -/

/-- C10: for every 32-bit `lastUpdate` and `time` (and a frame count below `INT_MAX`, so that
`++frames` is defined), with d = (time - lastUpdate) mod 2^32: if d < 1000 nothing is
printed and only `frames` changes, to frames + 1; if d >= 1000 exactly one fps line is
printed, carrying frames + 1, `frames` becomes 0, and `lastUpdate` advances by
1000 * (d / 1000), a positive multiple of 1000 that is at most d, after which
(time - lastUpdate) mod 2^32 = d mod 1000.  In both cases the step is defined and afterwards
(time - lastUpdate) mod 2^32 < 1000. -/
theorem updateFpsCounter_boundary (s : FpsState) (time : Nat)
    (hframes : s.frames < INT_MAX) (hlast : s.lastUpdate < UINT32_RANGE)
    (htime : time < UINT32_RANGE) :
    ((sub32 time s.lastUpdate : Nat) : Int) = ((time : Int) - (s.lastUpdate : Int)) % 4294967296 ∧
    (sub32 time s.lastUpdate < 1000 →
      updateFpsCounter s time = some { s with frames := s.frames + 1 }) ∧
    (1000 ≤ sub32 time s.lastUpdate →
      updateFpsCounter s time =
        some { frames := 0, fps := s.frames + 1,
               lastUpdate := (s.lastUpdate + 1000 * (sub32 time s.lastUpdate / 1000)) % 4294967296,
               stdout := s.stdout ++ ["fps: " ++ toString (s.frames + 1) ++ "\n"] } ∧
      0 < 1000 * (sub32 time s.lastUpdate / 1000) ∧
      1000 * (sub32 time s.lastUpdate / 1000) ≤ sub32 time s.lastUpdate ∧
      sub32 time ((s.lastUpdate + 1000 * (sub32 time s.lastUpdate / 1000)) % 4294967296) =
        sub32 time s.lastUpdate % 1000) ∧
    (∃ s', updateFpsCounter s time = some s' ∧ s'.lastUpdate < 4294967296 ∧
      sub32 time s'.lastUpdate < 1000) := by
  have hf : ¬ s.frames ≥ INT_MAX := by omega
  simp only [UINT32_RANGE] at hlast htime
  refine ⟨?_, ?_, ?_, ?_⟩
  · simp only [sub32, UINT32_RANGE]; omega
  · intro h
    have h' : ¬ sub32 time s.lastUpdate ≥ 1000 := by omega
    simp [updateFpsCounter, hf, h']
  · intro h
    refine ⟨?_, ?_, ?_, ?_⟩
    · simp only [updateFpsCounter, hf, if_false, ge_iff_le, h, if_true, add32, mul32, UINT32_RANGE]
      have : 1000 * (sub32 time s.lastUpdate / 1000) % 4294967296 =
          1000 * (sub32 time s.lastUpdate / 1000) := by
        simp only [sub32, UINT32_RANGE] at h ⊢; omega
      rw [this]
    · omega
    · omega
    · simp only [sub32, UINT32_RANGE] at h ⊢; omega
  · by_cases h : sub32 time s.lastUpdate ≥ 1000
    · refine ⟨_, by simp only [updateFpsCounter, hf, if_false, h, if_true]; rfl, ?_, ?_⟩
      · simp only [add32, mul32, UINT32_RANGE]; omega
      · simp only [add32, mul32, sub32, UINT32_RANGE] at h ⊢; omega
    · refine ⟨_, by simp only [updateFpsCounter, hf, if_false, h]; rfl, ?_, ?_⟩
      · simpa using hlast
      · simp only [sub32, UINT32_RANGE] at h ⊢; omega

/-- Witness for C10: a report across the wrap-around of the tick counter. -/
theorem updateFpsCounter_boundary_witness :
    sub32 1500 4294967000 = 1796 ∧
    updateFpsCounter { frames := 59, fps := 0, lastUpdate := 4294967000, stdout := [] } 1500 =
      some { frames := 0, fps := 60, lastUpdate := 704, stdout := ["fps: 60\n"] } :=
  ⟨by decide,
   ((updateFpsCounter_boundary
      { frames := 59, fps := 0, lastUpdate := 4294967000, stdout := [] } 1500
      (by decide) (by decide) (by decide)).2.2.1 (by decide)).1⟩

end Akarui
